import Mathlib

/-!
Shallow embedding of the SVG cursor-theme extraction engine of `make.py`:
the geometry model (`SVGRect`), the transform-offset recognizer
(`reTranslate`, modelling the regular expression
`translate\((-?[0-9]+(?:\.[0-9]+)?)[, ] *(-?[0-9]+(?:\.[0-9]+)?)\)` used with
a start-anchored match), the layer state machine and extraction callbacks of
`SVGLayerHandler` (`startElement_layer`, `endElement_layer`,
`startElement_rect`, `startElement_circle`, `startElement_svg`), the frame
name decomposition `get_animated_cursor_name`, and the cursor config emitter
`writeCursorConfig`.  Document coordinates are modelled as exact rationals;
Python `round` (round half to even) is `pyRound`, Python `int()` string
parsing is `pyInt`, and the uncaught `KeyError` raised for an unlabeled
layer-mode group, together with `fatalError`, is an `Err` value in `Except`.
-/

/-- Python `round` on an exact rational: round half to even. -/
def pyRound (q : ℚ) : ℤ :=
  let f : ℤ := q.floor
  let r : ℚ := q - (f : ℚ)
  if r < (1 : ℚ)/2 then f
  else if (1 : ℚ)/2 < r then f + 1
  else if f % 2 = 0 then f else f + 1

/-- Python `round(x, 3)` on an exact rational. -/
def round3 (q : ℚ) : ℚ := (pyRound (q * 1000) : ℚ) / 1000

/-- Whitespace stripped by Python `int()`. -/
def isPySpace (c : Char) : Bool :=
  c == ' ' || c == '\t' || c == '\n' || c == '\r' || c.toNat == 11 || c.toNat == 12

/-- Strip surrounding whitespace, as Python `str.strip` does for `int()`. -/
def pyStrip (cs : List Char) : List Char :=
  ((cs.dropWhile isPySpace).reverse.dropWhile isPySpace).reverse

/-- Digit part of a Python integer literal after the first digit:
digits optionally separated by single underscores. -/
def pyDigitsGo : Nat → List Char → Option Nat
  | acc, [] => some acc
  | acc, '_' :: c :: rest =>
      if c.isDigit then pyDigitsGo (acc * 10 + (c.toNat - 48)) rest else none
  | _, ['_'] => none
  | acc, c :: rest =>
      if c.isDigit then pyDigitsGo (acc * 10 + (c.toNat - 48)) rest else none

/-- Digit part of a Python integer literal: at least one digit, single
underscores allowed between digits. -/
def pyDigits : List Char → Option Nat
  | [] => none
  | c :: rest => if c.isDigit then pyDigitsGo (c.toNat - 48) rest else none

/-- Python `int()` applied to a character sequence: optional surrounding
whitespace, optional sign, then a digit part. -/
def pyInt (cs : List Char) : Option Int :=
  match pyStrip cs with
  | '+' :: rest => (pyDigits rest).map (fun n => (n : Int))
  | '-' :: rest => (pyDigits rest).map (fun n => -(n : Int))
  | rest => (pyDigits rest).map (fun n => (n : Int))

/-- Numeric value of a list of ASCII digits. -/
def digitsToNat (ds : List Char) : Nat :=
  ds.foldl (fun acc c => acc * 10 + (c.toNat - 48)) 0

/-- Match the regex fragment `-?[0-9]+(?:\.[0-9]+)?` at the head of the
input, returning the value and the unconsumed remainder. -/
def parseDec (cs : List Char) : Option (ℚ × List Char) :=
  let sgn : ℚ × List Char :=
    match cs with
    | '-' :: rest => (-1, rest)
    | _ => (1, cs)
  let ds := sgn.2.takeWhile Char.isDigit
  let rest := sgn.2.dropWhile Char.isDigit
  if ds.isEmpty then none
  else
    let ip : ℚ := (digitsToNat ds : ℚ)
    match rest with
    | '.' :: rest2 =>
      let fs := rest2.takeWhile Char.isDigit
      let rest3 := rest2.dropWhile Char.isDigit
      if fs.isEmpty then some (sgn.1 * ip, rest)
      else some (sgn.1 * (ip + (digitsToNat fs : ℚ) / ((10 : ℚ) ^ fs.length)), rest3)
    | _ => some (sgn.1 * ip, rest)

/-- Drop an expected literal head from the input, or fail. -/
def dropLit : List Char → List Char → Option (List Char)
  | [], cs => some cs
  | _ :: _, [] => none
  | p :: ps, c :: cs => if c = p then dropLit ps cs else none

/-- The handler's translation recognizer `_re_translate` used through
`re.match`: anchored at the start of the string only, so trailing text after
the closing parenthesis is ignored.  The separator is one comma or one
space, followed by optional spaces. -/
def reTranslate (t : String) : Option (ℚ × ℚ) :=
  match dropLit "translate(".data t.data with
  | none => none
  | some cs =>
    match parseDec cs with
    | none => none
    | some (a, cs1) =>
      match cs1 with
      | [] => none
      | sep :: cs2 =>
        if sep = ',' ∨ sep = ' ' then
          let cs3 := cs2.dropWhile (fun c => c == ' ')
          match parseDec cs3 with
          | none => none
          | some (b, cs4) =>
            match cs4 with
            | ')' :: _ => some (a, b)
            | _ => none
        else none

/-- `SVGRect`: a named slice rectangle with its hotspot, as in `make.py`
(`slice` is the 4-tuple x, y, w, h; `hotspot` the pair x, y;
both default geometry and hotspot start at zero). -/
structure SVGRect where
  name : String
  sliceX : ℚ := 0
  sliceY : ℚ := 0
  sliceW : ℚ := 0
  sliceH : ℚ := 0
  hotX : ℚ := 0
  hotY : ℚ := 0
deriving DecidableEq

/-- `SVGRect.get_animated_cursor_name`: if the last five characters start
with an underscore and the last four parse with Python `int()`, return the
name with the last five characters removed together with the parsed value;
otherwise the whole name with the sentinel frame `-1`. -/
def get_animated_cursor_name (name : String) : String × Int :=
  let cs := name.data
  let n := cs.length
  match cs.drop (n - 5) with
  | '_' :: _ =>
    match pyInt (cs.drop (n - 4)) with
    | some v => (String.mk (cs.take (n - 5)), v)
    | none => (name, -1)
  | _ => (name, -1)

/-- Result of `SVGRect.writeCursorConfig`: the file it opens (relative to the
hotspots directory), the open mode, and the written lines. -/
structure CursorConfig where
  fileName : String
  openMode : String
  lines : List String
deriving DecidableEq

/-- `SVGRect.writeCursorConfig`: one line
`<size> <x> <y> <size>/<name>.png[ <delay>]` per configured size, with
hotspot coordinates scaled by `size / round(slice width)` and rounded; the
delay ` round(1000/fps)` is appended only for animation frames; the file is
named after the base name and opened in write mode for frame `-1` (not
animated) or frame `1`, append mode otherwise. -/
def writeCursorConfig (r : SVGRect) (sizes : List Int) (fps : ℚ) : CursorConfig :=
  let p := get_animated_cursor_name r.name
  let frame := p.2
  let openmode := if frame = -1 ∨ frame = 1 then "w" else "a"
  let delay := if frame = -1 then "" else " " ++ toString (pyRound (1000 / fps))
  { fileName := p.1 ++ ".in",
    openMode := openmode,
    lines := sizes.map (fun (size : Int) =>
      let scl : ℚ := (size : ℚ) / ((pyRound r.sliceW : ℤ) : ℚ)
      let x := pyRound (r.hotX * scl)
      let y := pyRound (r.hotY * scl)
      toString size ++ " " ++ toString x ++ " " ++ toString y ++ " " ++
        toString size ++ "/" ++ r.name ++ ".png" ++ delay) }

/-- An aborting outcome of the extraction pass: an uncaught `KeyError`
escaping a callback, or a `fatalError` exit. -/
inductive Err
  | keyError
  | fatal
deriving DecidableEq

/-- The mutable state of `SVGLayerHandler` that the extraction callbacks
read and write. -/
structure HState where
  width : ℚ := 0
  height : ℚ := 0
  scale : Option (ℚ × ℚ) := none
  size : Option Int := none
  svg_rects : List SVGRect := []
  layer_nests : Int := 0
  layer_hotspots : Int := 0
  translate : ℚ × ℚ := (0, 0)
deriving DecidableEq

/-- Initial handler state. -/
def initState : HState := {}

/-- `_inSlicesLayer`. -/
def inSlicesLayer (s : HState) : Bool := decide (1 ≤ s.layer_nests)

/-- `_inHotspotsLayer`. -/
def inHotspotsLayer (s : HState) : Bool := decide (1 ≤ s.layer_hotspots)

/-- `parseCoordinates` on an already numeric value: scale by the first
viewBox scale component when one is set. -/
def parseCoord (s : HState) (q : ℚ) : ℚ :=
  match s.scale with
  | some sc => sc.1 * q
  | none => q

/-- `_add`: store a rect under its name (Python dict insert-or-overwrite,
keeping the original position of an existing key). -/
def addRect (rs : List SVGRect) (r : SVGRect) : List SVGRect :=
  if rs.any (fun x => x.name == r.name) then
    rs.map (fun x => if x.name == r.name then r else x)
  else rs ++ [r]

/-- The `try: m = _re_translate.match(attrs[transform]) ...` block: a missing
attribute (`KeyError`) or a failed match (`AttributeError` on `None.group`)
resets the translation to `(0, 0)`; a successful match stores the two groups
passed through `parseCoordinates`. -/
def setTranslate (s : HState) (transform : Option String) : HState :=
  match transform with
  | none => { s with translate := (0, 0) }
  | some t =>
    match reTranslate t with
    | none => { s with translate := (0, 0) }
    | some (a, b) => { s with translate := (parseCoord s a, parseCoord s b) }

/-- The depth-counter update of `_startElement_layer`: already being inside
the slices layer, or a label equal to `slices`, increments `_layer_nests`;
otherwise being inside the hotspots layer, or a label equal to `hotspots`,
increments `_layer_hotspots`.  Reading the label of an unlabeled group
raises `KeyError`. -/
def startLayerCounters (s : HState) (label : Option String) : Except Err HState :=
  if inSlicesLayer s then .ok { s with layer_nests := s.layer_nests + 1 }
  else
    match label with
    | none => .error .keyError
    | some lbl =>
      if lbl = "slices" then .ok { s with layer_nests := s.layer_nests + 1 }
      else if inHotspotsLayer s then .ok { s with layer_hotspots := s.layer_hotspots + 1 }
      else if lbl = "hotspots" then .ok { s with layer_hotspots := s.layer_hotspots + 1 }
      else .ok s

/-- `_startElement_layer`: only a group whose groupmode attribute is
`layer` is processed; the counters are updated, then the label is read
unconditionally (raising `KeyError` when absent) and a `slices` or
`hotspots` label re-parses the in-effect translation. -/
def startElement_layer (s : HState) (isLayer : Bool) (label : Option String)
    (transform : Option String) : Except Err HState :=
  if isLayer then
    match startLayerCounters s label with
    | .error e => .error e
    | .ok s1 =>
      match label with
      | none => .error .keyError
      | some lbl =>
        if lbl = "slices" then .ok (setTranslate s1 transform)
        else if lbl = "hotspots" then .ok (setTranslate s1 transform)
        else .ok s1
  else .ok s

/-- The slices branch of `_endElement_layer`: decrement `_layer_nests`, add
the in-effect translation to every stored rectangle, and set the shared
size from the first rectangle when still unset. -/
def applySlicesClose (s : HState) : HState :=
  let rects := s.svg_rects.map (fun r =>
    { r with sliceX := r.sliceX + s.translate.1, sliceY := r.sliceY + s.translate.2 })
  { s with layer_nests := s.layer_nests - 1,
           svg_rects := rects,
           size :=
             match s.size with
             | some v => some v
             | none =>
               match rects with
               | [] => none
               | r :: _ => some (pyRound r.sliceW) }

/-- The hotspots branch of `_endElement_layer`: decrement `_layer_hotspots`
and rewrite every stored rectangle's hotspot to
`(hotspot + translation - 0.1) - slice position`. -/
def applyHotspotsClose (s : HState) : HState :=
  { s with layer_hotspots := s.layer_hotspots - 1,
           svg_rects := s.svg_rects.map (fun r =>
             { r with hotX := (r.hotX + s.translate.1 - 1/10) - r.sliceX,
                      hotY := (r.hotY + s.translate.2 - 1/10) - r.sliceY }) }

/-- `_endElement_layer`, run for every closing `g` element: each branch fires
whenever its depth counter is positive, regardless of what the matching
start event did. -/
def endElement_layer (s : HState) : HState :=
  let s1 := if inSlicesLayer s then applySlicesClose s else s
  if inHotspotsLayer s1 then applyHotspotsClose s1 else s1

/-- `_startElement_rect`: inside the slices layer, record a new rect named
by the label attribute (falling back to the id), with coordinates passed
through `parseCoordinates`. -/
def startElement_rect (s : HState) (label : Option String) (idAttr : String)
    (x y w h : ℚ) : HState :=
  if inSlicesLayer s then
    let r : SVGRect :=
      { name := label.getD idAttr,
        sliceX := parseCoord s x, sliceY := parseCoord s y,
        sliceW := parseCoord s w, sliceH := parseCoord s h }
    { s with svg_rects := addRect s.svg_rects r }
  else s

/-- `_startElement_circle`: inside the hotspots layer, a circle whose
resolved name starts with `hotspot.` stores its center as the raw hotspot
of the slice named by the rest of the name; an unmatched name is discarded
with a warning. -/
def startElement_circle (s : HState) (label : Option String) (idAttr : String)
    (cx cy : ℚ) : HState :=
  if inHotspotsLayer s then
    let name := label.getD idAttr
    if name.startsWith "hotspot." then
      let target := name.drop 8
      if s.svg_rects.any (fun r => r.name == target) then
        { s with svg_rects := s.svg_rects.map (fun r =>
            if r.name == target then
              { r with hotX := parseCoord s cx, hotY := parseCoord s cy }
            else r) }
      else s
    else s
  else s

/-- `startElement_svg` and `_parseViewBox`: record the document size and the
viewBox scale, aborting fatally when the two scale components differ after
rounding to three decimals. -/
def startElement_svg (s : HState) (w h vb0 vb1 vb2 vb3 : ℚ) : Except Err HState :=
  let scx := w / (vb2 - vb0)
  let scy := h / (vb3 - vb1)
  if round3 scx = round3 scy then
    .ok { s with width := w, height := h, scale := some (scx, scy) }
  else .error .fatal

/-- Document events dispatched by `startElement` and `endElement`: the svg
root, a group start (with its groupmode-is-layer flag, label and transform
attributes), a group end, a rect, and a circle. -/
inductive Event
  | svg (w h vb0 vb1 vb2 vb3 : ℚ)
  | startG (isLayer : Bool) (label : Option String) (transform : Option String)
  | endG
  | rect (label : Option String) (idAttr : String) (x y w h : ℚ)
  | circle (label : Option String) (idAttr : String) (cx cy : ℚ)

/-- One dispatched callback of `SVGLayerHandler`. -/
def step (s : HState) (e : Event) : Except Err HState :=
  match e with
  | .svg w h a b c d => startElement_svg s w h a b c d
  | .startG isLayer label transform => startElement_layer s isLayer label transform
  | .endG => .ok (endElement_layer s)
  | .rect label idAttr x y w h => .ok (startElement_rect s label idAttr x y w h)
  | .circle label idAttr cx cy => .ok (startElement_circle s label idAttr cx cy)

/-- One extraction pass over a document event sequence. -/
def run (es : List Event) : Except Err HState :=
  es.foldlM step initState

/-! Concrete documents and states used to settle the claims. -/

/-- Two nested slices-labelled layers with translations (2,3) then (10,0),
one slice authored at (5,6), up to and including the inner layer close. -/
def c1Prefix : List Event := [.svg 100 100 0 0 100 100,
  .startG true (some "slices") (some "translate(2,3)"),
  .startG true (some "slices") (some "translate(10,0)"),
  .rect none "a" 5 6 32 32,
  .endG]

/-- The nested-slices document of `c1Prefix` with the outer close as well. -/
def c1Events : List Event := c1Prefix ++ [.endG]

/-- One slice at (10,10) and a matching hotspot circle at (5,5): the
resolved offset is negative. -/
def c2Events : List Event := [.svg 100 100 0 0 100 100,
  .startG true (some "slices") none,
  .rect none "a" 10 10 32 32,
  .endG,
  .startG true (some "hotspots") none,
  .circle none "hotspot.a" 5 5,
  .endG]

/-- A document whose only slice rectangle is 30 wide and 20 high. -/
def c3Events : List Event := [.svg 100 100 0 0 100 100,
  .startG true (some "slices") none,
  .rect none "a" 0 0 30 20,
  .endG]

/-- One slice at (10,10), then a hotspots layer that opens and closes with
no circle inside. -/
def c4aEvents : List Event := [.svg 100 100 0 0 100 100,
  .startG true (some "slices") none,
  .rect none "a" 10 10 32 32,
  .endG,
  .startG true (some "hotspots") none,
  .endG]

/-- One slice at (10,10) and no hotspots layer at all. -/
def c4bEvents : List Event := [.svg 100 100 0 0 100 100,
  .startG true (some "slices") none,
  .rect none "a" 10 10 32 32,
  .endG]

/-- The scenario document: slice `arrow`, 32 by 32 at (10,10), and a circle
`hotspot.arrow` centered at (12,12), identity translations. -/
def c5Events : List Event := [.svg 100 100 0 0 100 100,
  .startG true (some "slices") none,
  .rect (some "arrow") "r1" 10 10 32 32,
  .endG,
  .startG true (some "hotspots") none,
  .circle (some "hotspot.arrow") "c1" 12 12,
  .endG]

/-- The `arrow` slice at (10,10) with its raw hotspot (12,12) recorded. -/
def c5Rect : SVGRect :=
  { name := "arrow", sliceX := 10, sliceY := 10, sliceW := 32, sliceH := 32, hotX := 12, hotY := 12 }

/-- A handler state inside the hotspots layer only, holding `c5Rect`. -/
def c5Wit : HState := { initState with layer_hotspots := 1, svg_rects := [c5Rect] }

/-- The translation produced by starting a slices-labelled layer with the
given transform attribute, from the initial state. -/
def c7Step (tr : Option String) : Option (ℚ × ℚ) :=
  (step initState (.startG true (some "slices") tr)).toOption.map (fun s => s.translate)

/-- Frame 2 of the `blink` animation, 32 by 32 with hotspot offset (16,16). -/
def blinkRect2 : SVGRect :=
  { name := "blink_0002", sliceW := 32, sliceH := 32, hotX := 16, hotY := 16 }

/-- Frame 1 of the `blink` animation. -/
def blinkRect1 : SVGRect := { blinkRect2 with name := "blink_0001" }

/-- A non-animated slice named `arrow`. -/
def arrowRect : SVGRect := { blinkRect2 with name := "arrow" }

/-- A slice used to instantiate the per-size line-count statement. -/
def c8Wit : SVGRect := { name := "x", sliceW := 32, sliceH := 32 }

/-- A slices layer translated by (2,3) containing one slice and one plain
group (no groupmode attribute) whose end event closes the layer early; a
rectangle appearing after that close is ignored. -/
def c9Events : List Event := [.svg 100 100 0 0 100 100,
  .startG true (some "slices") (some "translate(2,3)"),
  .rect none "a" 10 10 32 32,
  .startG false none none,
  .endG,
  .rect none "b" 0 0 32 32,
  .endG]

/-- The slice `a` at (10,10) before any translation is applied. -/
def c9Rect : SVGRect :=
  { name := "a", sliceX := 10, sliceY := 10, sliceW := 32, sliceH := 32 }

/-- A handler state one level inside the slices layer with translation
(2,3), holding `c9Rect`. -/
def c9Wit : HState :=
  { initState with layer_nests := 1, translate := (2, 3), svg_rects := [c9Rect] }

/-! Theorems settling the claims. -/

/-- Claim C1, counterexample: for the nested slices layers with translations
(2,3) then (10,0), the slice authored at (5,6) does not end at
(5,6) + (12,3); the claimed accumulated shift is wrong for this document. -/
theorem nested_slices_translation_counterexample :
    ¬ ((run c1Events).toOption.map (fun s => s.svg_rects.map (fun r => (r.sliceX, r.sliceY)))
        = some [((5 : ℚ) + 12, (6 : ℚ) + 3)]) := by
  with_unfolding_all decide

/-- Claim C1, amended: the in-effect translation is applied at every group
end while the slices depth is positive, not only on the 1 to 0 transition,
and the translation register holds only the most recently parsed value; the
inner close shifts the slice by (10,0) to (15,6), and the outer close adds
(10,0) again, ending at (25,6), a total shift of (20,0). -/
theorem nested_slices_translation_compounds :
    ((run c1Prefix).toOption.map (fun s => s.svg_rects.map (fun r => (r.sliceX, r.sliceY)))
        = some [((15 : ℚ), (6 : ℚ))])
    ∧ ((run c1Events).toOption.map (fun s => s.svg_rects.map (fun r => (r.sliceX, r.sliceY)))
        = some [((25 : ℚ), (6 : ℚ))]) := by
  with_unfolding_all decide

/-- Claim C2, counterexample: a hotspot resolving to (-51/10, -51/10), below
the slice on both axes, is kept in the finished model and is not replaced by
(0,0). -/
theorem hotspot_offset_clamp_counterexample :
    ((run c2Events).toOption.map (fun s => s.svg_rects.map (fun r => (r.hotX, r.hotY)))
        = some [((-51 : ℚ)/10, (-51 : ℚ)/10)])
    ∧ ((-51 : ℚ)/10 < 0)
    ∧ ((-51 : ℚ)/10, (-51 : ℚ)/10) ≠ ((0 : ℚ), (0 : ℚ)) := by
  with_unfolding_all decide

/-- Claim C2, amended: no range check is performed anywhere; the final
hotspot offset is exactly the value (raw + translation - 1/10) - position
produced at the hotspots-layer close, even when it is out of range. -/
theorem hotspot_offset_unclamped :
    (run c2Events).toOption.map (fun s => s.svg_rects.map (fun r => (r.hotX, r.hotY)))
      = some [(((5 : ℚ) + 0 - 1/10) - 10, ((5 : ℚ) + 0 - 1/10) - 10)] := by
  with_unfolding_all decide

/-- Claim C3, counterexample: a document with a 30 by 20 slice rectangle is
extracted without any error; the non-square slice is kept in the model. -/
theorem nonsquare_slice_fatal_counterexample :
    ((run c3Events).toOption.map (fun s => s.svg_rects.map (fun r => (r.sliceW, r.sliceH)))
        = some [((30 : ℚ), (20 : ℚ))])
    ∧ (30 : ℚ) ≠ (20 : ℚ) := by
  with_unfolding_all decide

/-- Claim C3, amended: slice width and height are never compared; a
non-square slice is accepted.  The only not-square fatal check is on the
document viewBox scale, which aborts when the two axis scales differ after
rounding to three decimals. -/
theorem nonsquare_slice_accepted :
    ((run c3Events).toOption.map (fun s => s.svg_rects.length) = some 1)
    ∧ (run [Event.svg 100 50 0 0 100 100] = Except.error Err.fatal) := by
  constructor
  · with_unfolding_all decide
  · with_unfolding_all rfl

/-- Claim C4, counterexample: a slice at (10,10) with no matching hotspot
circle ends with hotspot offset (-101/10, -101/10), not (0,0), because the
hotspots-layer close rewrites every slice's hotspot. -/
theorem unmatched_hotspot_default_counterexample :
    ((run c4aEvents).toOption.map (fun s => s.svg_rects.map (fun r => (r.hotX, r.hotY)))
        = some [((-101 : ℚ)/10, (-101 : ℚ)/10)])
    ∧ ((-101 : ℚ)/10, (-101 : ℚ)/10) ≠ ((0 : ℚ), (0 : ℚ)) := by
  with_unfolding_all decide

/-- Claim C4, amended: the hotspot defaults to (0,0) at creation and stays
(0,0) in the finished model only when no hotspots-layer close occurs; any
hotspots-layer close rewrites the unmatched slice's hotspot to
(0 + translation - 1/10) - position. -/
theorem unmatched_hotspot_rewritten :
    ((run c4bEvents).toOption.map (fun s => s.svg_rects.map (fun r => (r.hotX, r.hotY)))
        = some [((0 : ℚ), (0 : ℚ))])
    ∧ ((run c4aEvents).toOption.map (fun s => s.svg_rects.map (fun r => (r.hotX, r.hotY)))
        = some [(((0 : ℚ) + 0 - 1/10) - 10, ((0 : ℚ) + 0 - 1/10) - 10)]) := by
  with_unfolding_all decide

/-- Claim C5: at a hotspots-layer close (hotspots depth positive, not inside
the slices layer) every slice's hotspot becomes
(raw + translation - 1/10) - slice position on each axis; and the scenario
document (slice `arrow` at (10,10), circle `hotspot.arrow` at (12,12),
identity translation) yields hotspot offset (19/10, 19/10). -/
theorem hotspot_offset_formula :
    (∀ s : HState, inSlicesLayer s = false → inHotspotsLayer s = true →
        (endElement_layer s).svg_rects = s.svg_rects.map (fun r =>
          { r with hotX := (r.hotX + s.translate.1 - 1/10) - r.sliceX,
                   hotY := (r.hotY + s.translate.2 - 1/10) - r.sliceY }))
    ∧ ((run c5Events).toOption.map (fun s => s.svg_rects.map (fun r => (r.hotX, r.hotY)))
        = some [((19 : ℚ)/10, (19 : ℚ)/10)]) := by
  constructor
  · intro s h1 h2
    simp [endElement_layer, h1, h2, applyHotspotsClose]
  · with_unfolding_all decide

/-- Witness for claim C5 at the state holding the `arrow` slice with raw
hotspot (12,12). -/
theorem hotspot_offset_formula_witness :
    inSlicesLayer c5Wit = false ∧ inHotspotsLayer c5Wit = true ∧
    (endElement_layer c5Wit).svg_rects = c5Wit.svg_rects.map (fun r =>
      { r with hotX := (r.hotX + c5Wit.translate.1 - 1/10) - r.sliceX,
               hotY := (r.hotY + c5Wit.translate.2 - 1/10) - r.sliceY }) :=
  ⟨by decide, by decide, hotspot_offset_formula.1 c5Wit (by decide) (by decide)⟩

/-- Claim C6, counterexample: `cursor_0000` decomposes to (`cursor`, 0)
although 0 is not a positive integer; the suffix is stripped from the base
name instead of being kept. -/
theorem frame_name_counterexample :
    get_animated_cursor_name "cursor_0000" = ("cursor", 0)
    ∧ ("cursor", (0 : Int)) ≠ ("cursor_0000", (-1 : Int)) := by
  with_unfolding_all decide

/-- Claim C6, amended: a name ending in an underscore followed by exactly
four characters accepted by the Python integer parser (including zero and
signed forms) decomposes into the name with the last five characters removed
and the parsed value; only a suffix that fails integer parsing is kept in
the base name; the no-frame sentinel is -1, which `cursor_-001` collides
with. -/
theorem frame_name_decomposition :
    get_animated_cursor_name "cursor_0001" = ("cursor", 1)
    ∧ get_animated_cursor_name "cursor" = ("cursor", -1)
    ∧ get_animated_cursor_name "cursor_abcd" = ("cursor_abcd", -1)
    ∧ get_animated_cursor_name "cursor_0000" = ("cursor", 0)
    ∧ get_animated_cursor_name "cursor_-001" = ("cursor", -1)
    ∧ get_animated_cursor_name "cursor_+001" = ("cursor", 1) := by
  with_unfolding_all decide

/-- Claim C7, counterexample: a compound transform list beginning with a
translation, `translate(2,3) rotate(45)`, yields the translation (2,3)
rather than the identity, because the pattern is matched only at the start
of the string. -/
theorem transform_translate_counterexample :
    c7Step (some "translate(2,3) rotate(45)") = some ((2 : ℚ), (3 : ℚ))
    ∧ ((2 : ℚ), (3 : ℚ)) ≠ ((0 : ℚ), (0 : ℚ)) := by
  with_unfolding_all decide

/-- Claim C7, amended: a transform string whose head matches the
pure-translation form (with an optional leading minus; a plus sign is not
accepted) yields that translation, trailing content ignored; any string not
beginning with the form, and a missing attribute, yield the identity
translation, and no input raises an error. -/
theorem transform_translate_amended :
    c7Step (some "rotate(45)") = some ((0 : ℚ), (0 : ℚ))
    ∧ c7Step (some "scale(2)") = some ((0 : ℚ), (0 : ℚ))
    ∧ c7Step (some "matrix(1,0,0,1,5,5)") = some ((0 : ℚ), (0 : ℚ))
    ∧ c7Step none = some ((0 : ℚ), (0 : ℚ))
    ∧ c7Step (some "translate(2, 3)") = some ((2 : ℚ), (3 : ℚ))
    ∧ c7Step (some "translate(2 3)") = some ((2 : ℚ), (3 : ℚ))
    ∧ c7Step (some "translate(-2.5,3)") = some ((-5 : ℚ)/2, (3 : ℚ))
    ∧ c7Step (some "translate(2,3) rotate(45)") = some ((2 : ℚ), (3 : ℚ))
    ∧ c7Step (some "translate(+2,3)") = some ((0 : ℚ), (0 : ℚ)) := by
  with_unfolding_all decide

/-- Claim C8: the emitter writes one line per target size in the format
`<size> <x> <y> <size>/<name>.png[ <delay>]`; the slice `blink_0002` with
size 32 and hotspot offset (16,16) at target size 64 and fps 20 produces
`64 32 32 64/blink_0002.png 50` appended to file `blink.in`, frame 1 and
non-animated slices open their file in replace mode, and a non-animated
slice gets no delay field. -/
theorem cursor_config_emitter :
    (writeCursorConfig blinkRect2 [64] 20
      = { fileName := "blink.in", openMode := "a",
          lines := ["64 32 32 64/blink_0002.png 50"] })
    ∧ ((writeCursorConfig blinkRect1 [64] 20).openMode = "w")
    ∧ ((writeCursorConfig blinkRect1 [64] 20).fileName = "blink.in")
    ∧ (writeCursorConfig arrowRect [64] 20
      = { fileName := "arrow.in", openMode := "w",
          lines := ["64 32 32 64/arrow.png"] })
    ∧ (∀ (r : SVGRect) (szs : List Int) (f : ℚ),
        (writeCursorConfig r szs f).lines.length = szs.length) := by
  refine ⟨?_, ?_, ?_, ?_, ?_⟩
  · with_unfolding_all decide
  · with_unfolding_all decide
  · with_unfolding_all decide
  · with_unfolding_all decide
  · intro r szs f
    simp only [writeCursorConfig]
    exact szs.length_map _

/-- Witness for claim C8: the per-size line count at a concrete slice and
size list. -/
theorem cursor_config_emitter_witness :
    (writeCursorConfig c8Wit [24, 32] 5).lines.length = ([24, 32] : List Int).length :=
  cursor_config_emitter.2.2.2.2 c8Wit [24, 32] 5

/-- Claim C9: a group start without groupmode `layer` never changes the
state, while every group end decrements the slices depth and applies the
in-effect translation to every slice position whenever the depth is
positive; hence in `c9Events` the plain group's end closes the slices layer
early, the slice `a` receives the (2,3) shift there, and the rectangle `b`
appearing afterwards is ignored. -/
theorem asymmetric_depth_counting :
    (∀ (s : HState) (lbl tr : Option String), step s (.startG false lbl tr) = .ok s)
    ∧ (∀ s : HState, inSlicesLayer s = true →
        (endElement_layer s).layer_nests = s.layer_nests - 1 ∧
        (endElement_layer s).svg_rects.map (fun r => (r.sliceX, r.sliceY))
          = s.svg_rects.map (fun r => (r.sliceX + s.translate.1, r.sliceY + s.translate.2)))
    ∧ ((run c9Events).toOption.map (fun s =>
          (s.layer_nests, s.svg_rects.map (fun r => (r.name, r.sliceX, r.sliceY))))
        = some (0, [("a", (12 : ℚ), (13 : ℚ))])) := by
  refine ⟨fun s lbl tr => rfl, ?_, by with_unfolding_all decide⟩
  intro s h
  constructor
  · simp only [endElement_layer, h, if_true]
    split
    · rfl
    · rfl
  · simp only [endElement_layer, h, if_true]
    split
    · simp [applySlicesClose, applyHotspotsClose, List.map_map]
    · simp [applySlicesClose, List.map_map]

/-- Witness for claim C9 at a state one level inside the slices layer with
translation (2,3). -/
theorem asymmetric_depth_counting_witness :
    inSlicesLayer c9Wit = true ∧
    ((endElement_layer c9Wit).layer_nests = c9Wit.layer_nests - 1 ∧
     (endElement_layer c9Wit).svg_rects.map (fun r => (r.sliceX, r.sliceY))
       = c9Wit.svg_rects.map (fun r => (r.sliceX + c9Wit.translate.1, r.sliceY + c9Wit.translate.2))) :=
  ⟨by decide, asymmetric_depth_counting.2.1 c9Wit (by decide)⟩

/-- Claim C10: a group whose groupmode is `layer` but which carries no label
attribute makes the container-start handling raise `KeyError`, from every
handler state and for every transform attribute. -/
theorem unlabeled_layer_keyerror :
    ∀ (s : HState) (tr : Option String),
      step s (.startG true none tr) = .error .keyError := by
  intro s tr
  cases h : inSlicesLayer s <;>
    simp [step, startElement_layer, startLayerCounters, h]

/-- Witness for claim C10 at the initial state. -/
theorem unlabeled_layer_keyerror_witness :
    step initState (.startG true none none) = .error .keyError :=
  unlabeled_layer_keyerror initState none
